import Mathlib

/-
Shallow embedding of the notebook
"Tutorials/Boston Housing - XGBoost (Deploy) - High Level.ipynb".

The notebook loads the Boston housing dataset, splits it twice with
sklearn's train_test_split (test_size=0.33 each time), writes
validation.csv and train.csv (target first, no header, no index),
uploads both files to S3 under the key folder
"boston-xgboost-deploy-hl", builds an Estimator with the container
returned by get_image_uri(region, "xgboost", "0.90-1"), calls fit with
the channels "train" and "validation" (content type csv), deploys one
endpoint on one ml.m4.xlarge instance, sends the test features in a
single predict call (content type "text/csv"), decodes the response as
UTF-8, parses it with np.fromstring(sep=","), scatter-plots, and
finally deletes the endpoint.

Randomness (the shuffles inside train_test_split), the SageMaker SDK
(region, bucket, image URI, upload locations, the deployed endpoint's
response) and the initial filesystem state are parameters of the
embedding; everything the notebook itself computes is embedded as
executable Lean definitions.
-/

/-- One row of the loaded housing dataset: its position in the original
dataset, the 13 feature values (one dataframe row of `X_bos_pd`), and the
target value (the matching row of `Y_bos_pd`).  `train_test_split(X, Y, ...)`
indexes the feature and target frames with the same shuffled index array,
so a row keeps its features and target together through the splits. -/
structure Row where
  idx : Nat
  features : List ℚ
  target : ℚ
deriving DecidableEq

/-- The number of test samples chosen by sklearn's `train_test_split` with
`test_size=0.33` on `n` samples: `ceil(0.33 * n)`, computed as a
natural-number ceiling division of `33 * n` by `100`. -/
def testCount (n : Nat) : Nat := (33 * n + 99) / 100

/-- `sklearn.model_selection.train_test_split(X, Y, test_size=0.33)` applied
to the already shuffled rows: the first `testCount n` shuffled rows are the
test set, the remaining rows are the train set.  Returned as
`(train, test)`, the order in which the notebook unpacks the result. -/
def trainTestSplit (shuffled : List Row) : List Row × List Row :=
  (shuffled.drop (testCount shuffled.length),
   shuffled.take (testCount shuffled.length))

/-- The three partitions produced by cell "Step 2". -/
structure SplitResult where
  train : List Row
  val : List Row
  test : List Row
deriving DecidableEq

/-- Cell "Step 2": first `train_test_split` on the whole dataset (giving
`X_train/Y_train` and `X_test/Y_test`), then a second `train_test_split` on
that train set (giving the final train set and `X_val/Y_val`).
`shuffled1` is the dataset as shuffled inside the first call and
`shuffled2` is the first call's train output as shuffled inside the
second call. -/
def splitData (shuffled1 shuffled2 : List Row) : SplitResult :=
  let p1 := trainTestSplit shuffled1
  let p2 := trainTestSplit shuffled2
  ⟨p2.1, p2.2, p1.2⟩

/-- One CSV row as written by `pd.concat([Y_x, X_x], axis=1).to_csv(...)`:
the target value first, then the feature values. -/
def csvRow (r : Row) : List ℚ := r.target :: r.features

/-- The CSV file contents written for a partition. -/
def csvOf (rs : List Row) : List (List ℚ) := rs.map csvRow

/-- The local data directory, `data_dir = '../data/boston'`. -/
def dataDir : String := "../data/boston"

/-- The S3 key folder used for the uploads,
`'boston-xgboost-deploy-hl'` (called a key prefix by the SDK). -/
def keyFolder : String := "boston-xgboost-deploy-hl"

/-- The operations the notebook performs, in the order they are executed.
Arguments record what each call receives from the notebook. -/
inductive Op where
  | loadDataset
  | splitRows
  | makeDirs (dir : String)
  | writeCsv (path : String) (content : List (List ℚ)) (header index : Bool)
  | uploadData (path : String) (folder : String)
  | getImageUri (region alg version : String)
  | createEstimator (image : String) (trainInstanceCount : Nat)
      (trainInstanceType : String) (outputPath : String)
  | setHyperparameters
  | fit (channels : List (String × String × String))
  | deploy (endpointId : Nat) (initialInstanceCount : Nat) (instanceType : String)
  | predict (endpointId : Nat) (payload : List (List ℚ)) (contentType : String)
  | scatterPlot
  | deleteEndpoint (endpointId : Nat)
deriving DecidableEq

/-- The step kind of an operation, forgetting its arguments. -/
inductive StepKind where
  | load
  | split
  | makeDirs
  | writeCsv
  | upload
  | getImage
  | createEstimator
  | setHyper
  | fit
  | deploy
  | predict
  | plot
  | deleteEndpoint
deriving DecidableEq, BEq

/-- Forget an operation's arguments. -/
def kindOf : Op → StepKind
  | Op.loadDataset => StepKind.load
  | Op.splitRows => StepKind.split
  | Op.makeDirs _ => StepKind.makeDirs
  | Op.writeCsv _ _ _ _ => StepKind.writeCsv
  | Op.uploadData _ _ => StepKind.upload
  | Op.getImageUri _ _ _ => StepKind.getImage
  | Op.createEstimator _ _ _ _ => StepKind.createEstimator
  | Op.setHyperparameters => StepKind.setHyper
  | Op.fit _ => StepKind.fit
  | Op.deploy _ _ _ => StepKind.deploy
  | Op.predict _ _ _ => StepKind.predict
  | Op.scatterPlot => StepKind.plot
  | Op.deleteEndpoint _ => StepKind.deleteEndpoint

/-- Cell "Save the data locally":
`if not os.path.exists(data_dir): os.makedirs(data_dir)`.
The relevant filesystem state is whether `../data/boston` exists; the
result is the state afterwards and the filesystem operations performed. -/
def ensureDataDir (dirExists : Bool) : Bool × List Op :=
  if dirExists then (dirExists, []) else (true, [Op.makeDirs dataDir])

/-- The SageMaker SDK and AWS environment as the notebook sees them:
everything here is computed by the platform, not by the notebook. -/
structure SDK where
  region : String
  defaultBucket : String
  imageUri : String → String → String → String
  s3Location : String → String → String
  endpointResponse : List (List ℚ) → ByteArray

/-- Everything outside the notebook's own code that an execution depends
on: the loaded dataset, the two shuffles drawn inside the two
`train_test_split` calls, the initial filesystem state, and the SDK. -/
structure Env where
  rows : List Row
  shuffled1 : List Row
  shuffled2 : List Row
  dirExists : Bool
  sdk : SDK

/-- Parse one comma-separated field the way `np.fromstring(..., sep=',')`
reads a decimal number: digits with an optional single decimal point,
optionally preceded by a minus sign.  Anything else fails. -/
def parseNatDigits (cs : List Char) : Option ℕ :=
  match cs with
  | [] => none
  | _ => cs.foldl
      (fun acc c => acc.bind
        (fun n => if c.isDigit then some (n * 10 + (c.toNat - 48)) else none))
      (some 0)

/-- Parse an unsigned decimal literal such as `21` or `21.53265`. -/
def parseUnsigned (s : String) : Option ℚ :=
  match s.splitOn "." with
  | [intPart] => (parseNatDigits intPart.toList).map (fun n => (n : ℚ))
  | [intPart, fracPart] =>
      (parseNatDigits intPart.toList).bind (fun n =>
        (parseNatDigits fracPart.toList).map (fun f =>
          (n : ℚ) + (f : ℚ) / (10 : ℚ) ^ fracPart.length))
  | _ => none

/-- Parse a possibly negative decimal literal. -/
def parseNumber (s : String) : Option ℚ :=
  if s.startsWith "-" then (parseUnsigned (s.drop 1)).map Neg.neg
  else parseUnsigned s

/-- `np.fromstring(s, sep=',')`: split the response string on commas and
read each field as a number; unparseable fields yield nothing. -/
def npFromString (s : String) : List ℚ :=
  (s.splitOn ",").filterMap parseNumber

/-- Everything one execution of the notebook produces: the operation
trace and the values of the notebook's variables. -/
structure RunResult where
  trace : List Op
  split : SplitResult
  valCsv : List (List ℚ)
  trainCsv : List (List ℚ)
  localFiles : List (String × List (List ℚ))
  container : String
  valLocation : String
  trainLocation : String
  dirExistsAfter : Bool
  yPred : Option (List ℚ)

/-- The whole notebook, cell by cell: load_boston; the two
train_test_split calls; the data-directory guard; to_csv for
validation.csv then train.csv (header=False, index=False);
session.upload_data for validation.csv then train.csv under
`keyFolder`; get_image_uri(region, 'xgboost', '0.90-1');
Estimator(container, role, 1, 'ml.m4.xlarge', output_path);
set_hyperparameters; fit with the 'train' and 'validation' csv
channels; deploy(1, 'ml.m4.xlarge'); a single predict of the test
features with content type 'text/csv', decoded as UTF-8 and parsed by
np.fromstring(sep=','); the scatter plot; delete_endpoint. -/
def run (e : Env) : RunResult :=
  let sp := splitData e.shuffled1 e.shuffled2
  let dirStep := ensureDataDir e.dirExists
  let valCsv := csvOf sp.val
  let trainCsv := csvOf sp.train
  let valPath := dataDir ++ "/validation.csv"
  let trainPath := dataDir ++ "/train.csv"
  let valLocation := e.sdk.s3Location keyFolder "validation.csv"
  let trainLocation := e.sdk.s3Location keyFolder "train.csv"
  let container := e.sdk.imageUri e.sdk.region "xgboost" "0.90-1"
  let outputPath := "s3://" ++ e.sdk.defaultBucket ++ "/" ++ keyFolder ++ "/output"
  let channels := [("train", trainLocation, "csv"), ("validation", valLocation, "csv")]
  let payload := sp.test.map Row.features
  let rawPred := e.sdk.endpointResponse payload
  ⟨[Op.loadDataset, Op.splitRows] ++ dirStep.2 ++
     [Op.writeCsv valPath valCsv false false,
      Op.writeCsv trainPath trainCsv false false,
      Op.uploadData valPath keyFolder,
      Op.uploadData trainPath keyFolder,
      Op.getImageUri e.sdk.region "xgboost" "0.90-1",
      Op.createEstimator container 1 "ml.m4.xlarge" outputPath,
      Op.setHyperparameters,
      Op.fit channels,
      Op.deploy 0 1 "ml.m4.xlarge",
      Op.predict 0 payload "text/csv",
      Op.scatterPlot,
      Op.deleteEndpoint 0],
   sp, valCsv, trainCsv,
   [(valPath, valCsv), (trainPath, trainCsv)],
   container, valLocation, trainLocation,
   dirStep.1,
   (String.fromUTF8? rawPred).map npFromString⟩

/-- Bool test: is this operation an S3 upload? -/
def isUpload : Op → Bool
  | Op.uploadData _ _ => true
  | _ => false

/-- Bool test: is this operation the get_image_uri lookup? -/
def isGetImageUri : Op → Bool
  | Op.getImageUri _ _ _ => true
  | _ => false

/-- Bool test: is this operation the Estimator construction? -/
def isCreateEstimator : Op → Bool
  | Op.createEstimator _ _ _ _ => true
  | _ => false

/-- Bool test: is this operation the fit call? -/
def isFit : Op → Bool
  | Op.fit _ => true
  | _ => false

/-- Bool test: is this operation the deploy call? -/
def isDeploy : Op → Bool
  | Op.deploy _ _ _ => true
  | _ => false

/-- Bool test: is this operation a predict call? -/
def isPredict : Op → Bool
  | Op.predict _ _ _ => true
  | _ => false

/-- Bool test: is this operation the delete_endpoint call? -/
def isDeleteEndpoint : Op → Bool
  | Op.deleteEndpoint _ => true
  | _ => false

/-- Bool test: is this operation the guarded makedirs? -/
def isMakeDirs : Op → Bool
  | Op.makeDirs _ => true
  | _ => false

/-- Bool test: does a writeCsv operation carry header=False and
index=False?  True on every other operation. -/
def noHeaderNoIndex : Op → Bool
  | Op.writeCsv _ _ h i => !h && !i
  | _ => true

/-- The endpoints in service after a trace has executed: deploy brings an
endpoint up, delete_endpoint takes it down, nothing else touches them. -/
def endpointsAfter (t : List Op) : List Nat :=
  t.foldl
    (fun acc op =>
      match op with
      | Op.deploy pid _ _ => pid :: acc
      | Op.deleteEndpoint pid => acc.erase pid
      | _ => acc) []

theorem run_split (e : Env) : (run e).split = splitData e.shuffled1 e.shuffled2 := rfl

theorem run_valCsv (e : Env) :
    (run e).valCsv = csvOf (splitData e.shuffled1 e.shuffled2).val := rfl

theorem run_trainCsv (e : Env) :
    (run e).trainCsv = csvOf (splitData e.shuffled1 e.shuffled2).train := rfl

theorem testCount_le (n : ℕ) : testCount n ≤ n := by
  simp only [testCount]; omega

theorem splitData_test (s1 s2 : List Row) :
    (splitData s1 s2).test = s1.take (testCount s1.length) := rfl

theorem splitData_val (s1 s2 : List Row) :
    (splitData s1 s2).val = s2.take (testCount s2.length) := rfl

theorem splitData_train (s1 s2 : List Row) :
    (splitData s1 s2).train = s2.drop (testCount s2.length) := rfl

/-- The three partitions together are a permutation of the loaded rows. -/
theorem splitData_perm (rows s1 s2 : List Row) (h1 : List.Perm s1 rows)
    (h2 : List.Perm s2 (trainTestSplit s1).1) :
    List.Perm ((splitData s1 s2).train ++ (splitData s1 s2).val ++ (splitData s1 s2).test)
      rows := by
  have htv : List.Perm ((splitData s1 s2).train ++ (splitData s1 s2).val) s2 := by
    rw [splitData_train, splitData_val]
    have hp : List.Perm (s2.drop (testCount s2.length) ++ s2.take (testCount s2.length))
        (s2.take (testCount s2.length) ++ s2.drop (testCount s2.length)) :=
      List.perm_append_comm
    rw [List.take_append_drop] at hp
    exact hp
  have h2' : List.Perm s2 (s1.drop (testCount s1.length)) := h2
  have hall : List.Perm
      ((splitData s1 s2).train ++ (splitData s1 s2).val ++ (splitData s1 s2).test)
      (s1.drop (testCount s1.length) ++ s1.take (testCount s1.length)) := by
    rw [splitData_test]
    exact List.Perm.append (htv.trans h2') (List.Perm.refl _)
  refine hall.trans ?_
  have hp2 : List.Perm (s1.drop (testCount s1.length) ++ s1.take (testCount s1.length))
      (s1.take (testCount s1.length) ++ s1.drop (testCount s1.length)) :=
    List.perm_append_comm
  rw [List.take_append_drop] at hp2
  exact hp2.trans h1

/-- Every row of any of the three partitions is a row of the dataset. -/
theorem splitData_mem (rows s1 s2 : List Row) (h1 : List.Perm s1 rows)
    (h2 : List.Perm s2 (trainTestSplit s1).1) (r : Row)
    (hr : r ∈ (splitData s1 s2).train ∨ r ∈ (splitData s1 s2).val ∨
      r ∈ (splitData s1 s2).test) :
    r ∈ rows := by
  have hperm := splitData_perm rows s1 s2 h1 h2
  refine hperm.mem_iff.mp ?_
  simp only [List.mem_append]
  tauto

/-- When the dataset's rows carry distinct indices, the index lists of the
three partitions are pairwise disjoint. -/
theorem splitData_disjoint (rows s1 s2 : List Row) (h1 : List.Perm s1 rows)
    (h2 : List.Perm s2 (trainTestSplit s1).1)
    (hnodup : (rows.map Row.idx).Nodup) :
    List.Disjoint ((splitData s1 s2).train.map Row.idx) ((splitData s1 s2).val.map Row.idx) ∧
    List.Disjoint ((splitData s1 s2).train.map Row.idx) ((splitData s1 s2).test.map Row.idx) ∧
    List.Disjoint ((splitData s1 s2).val.map Row.idx) ((splitData s1 s2).test.map Row.idx) := by
  have hperm := (splitData_perm rows s1 s2 h1 h2).map Row.idx
  have hall : (((splitData s1 s2).train ++ (splitData s1 s2).val ++
      (splitData s1 s2).test).map Row.idx).Nodup := hperm.nodup_iff.mpr hnodup
  rw [List.map_append, List.map_append, List.nodup_append, List.nodup_append] at hall
  obtain ⟨⟨_, _, hd1⟩, _, hd2⟩ := hall
  rw [List.disjoint_append_left] at hd2
  exact ⟨hd1, hd2.1, hd2.2⟩

theorem testCount_eq_ceil (m : ℕ) : (testCount m : ℤ) = ⌈(33 : ℚ)/100 * m⌉ := by
  have hlow : 33 * m ≤ testCount m * 100 := by simp only [testCount]; omega
  have hhigh : testCount m * 100 < 33 * m + 100 := by simp only [testCount]; omega
  rw [eq_comm, Int.ceil_eq_iff]
  constructor
  · rw [div_mul_eq_mul_div, lt_div_iff₀ (by norm_num)]
    have hq : ((testCount m : ℚ) - 1) * 100 < 33 * m := by
      have hc : (testCount m : ℚ) * 100 < 33 * m + 100 := by exact_mod_cast hhigh
      linarith
    exact_mod_cast hq
  · rw [div_mul_eq_mul_div, div_le_iff₀ (by norm_num)]
    have hq : (33 : ℚ) * m ≤ (testCount m : ℚ) * 100 := by exact_mod_cast hlow
    exact_mod_cast hq

/-- The partition sizes produced by the two splits, in terms of the
dataset size. -/
theorem splitData_lengths (rows s1 s2 : List Row) (h1 : List.Perm s1 rows)
    (h2 : List.Perm s2 (trainTestSplit s1).1) :
    (splitData s1 s2).test.length = testCount rows.length ∧
    (splitData s1 s2).val.length =
      testCount (rows.length - testCount rows.length) ∧
    (splitData s1 s2).train.length =
      rows.length - testCount rows.length -
        testCount (rows.length - testCount rows.length) := by
  have hl1 : s1.length = rows.length := h1.length_eq
  have hl2 : s2.length = rows.length - testCount rows.length := by
    have := h2.length_eq
    simp only [trainTestSplit, List.length_drop] at this
    rw [this, hl1]
  refine ⟨?_, ?_, ?_⟩
  · rw [splitData_test, List.length_take, hl1]
    exact Nat.min_eq_left (testCount_le _)
  · rw [splitData_val, List.length_take, hl2]
    exact Nat.min_eq_left (testCount_le _)
  · rw [splitData_train, List.length_drop, hl2]

/-- A small concrete dataset for witnesses: three rows with distinct
indices and 13 features each. -/
def sampleRows : List Row :=
  [⟨0, [0, 0, 0, 0, 0, 0, 0, 0, 0, 0, 0, 0, 0], 10⟩,
   ⟨1, [1, 1, 1, 1, 1, 1, 1, 1, 1, 1, 1, 1, 1], 20⟩,
   ⟨2, [2, 2, 2, 2, 2, 2, 2, 2, 2, 2, 2, 2, 2], 30⟩]

/-- A concrete SDK environment for witnesses. -/
def sampleSDK : SDK :=
  ⟨"us-west-2", "sample-bucket",
   fun region alg version => region ++ "/" ++ alg ++ ":" ++ version,
   fun folder file => "s3://sample-bucket/" ++ folder ++ "/" ++ file,
   fun _ => ByteArray.mk #[49, 46, 53]⟩

/-- A concrete execution environment in which the data directory already
exists and both shuffles are the identity. -/
def sampleEnv : Env :=
  ⟨sampleRows, sampleRows, (trainTestSplit sampleRows).1, true, sampleSDK⟩

/-- The same environment except that the data directory is missing. -/
def sampleEnvNoDir : Env :=
  ⟨sampleRows, sampleRows, (trainTestSplit sampleRows).1, false, sampleSDK⟩

/-- The 506-row dataset shape of the Boston housing data, for the
size witness. -/
def bigRows : List Row := (List.range 506).map (fun i => ⟨i, [], 0⟩)

/-- An execution environment loading the 506-row dataset. -/
def bigEnv : Env := ⟨bigRows, bigRows, (trainTestSplit bigRows).1, true, sampleSDK⟩

theorem run_localFiles (e : Env) :
    (run e).localFiles =
      [(dataDir ++ "/validation.csv", (run e).valCsv),
       (dataDir ++ "/train.csv", (run e).trainCsv)] := rfl

/-- C9: the local data-directory setup is idempotent and guarded: makedirs
runs exactly when '../data/boston' is missing, afterwards the directory
exists, from a state where it already exists the step performs no
filesystem operation, and running the step a second time never performs
any operation. -/
theorem claim9_dataDir_guard (b : Bool) :
    (Op.makeDirs dataDir ∈ (ensureDataDir b).2 ↔ b = false) ∧
    (ensureDataDir b).1 = true ∧
    ensureDataDir true = (true, []) ∧
    ensureDataDir (ensureDataDir b).1 = (true, []) := by
  cases b <;> simp [ensureDataDir]

/-- C10: for a dataset of N rows the test partition has ceil(0.33*N) rows,
the validation partition ceil(0.33*(N - ceil(0.33*N))) rows, the train
partition the rest, `testCount` being exactly that ceiling; for N = 506
the sizes are 167 test, 112 validation, 227 train. -/
theorem claim10_split_sizes (e : Env)
    (h1 : List.Perm e.shuffled1 e.rows)
    (h2 : List.Perm e.shuffled2 (trainTestSplit e.shuffled1).1) :
    ((run e).split.test.length = testCount e.rows.length ∧
     (run e).split.val.length = testCount (e.rows.length - testCount e.rows.length) ∧
     (run e).split.train.length =
       e.rows.length - testCount e.rows.length -
         testCount (e.rows.length - testCount e.rows.length)) ∧
    (∀ m : ℕ, (testCount m : ℤ) = ⌈(33 : ℚ)/100 * m⌉) ∧
    (e.rows.length = 506 →
      (run e).split.test.length = 167 ∧
      (run e).split.val.length = 112 ∧
      (run e).split.train.length = 227) := by
  have h := splitData_lengths e.rows e.shuffled1 e.shuffled2 h1 h2
  rw [run_split]
  refine ⟨h, testCount_eq_ceil, ?_⟩
  intro h506
  obtain ⟨ht, hv, htr⟩ := h
  rw [ht, hv, htr, h506]
  norm_num [testCount]

set_option maxRecDepth 4000 in
/-- C10 witness: the 506-row environment has partition sizes 167, 112
and 227. -/
theorem claim10_split_sizes_witness :
    (run bigEnv).split.test.length = 167 ∧
    (run bigEnv).split.val.length = 112 ∧
    (run bigEnv).split.train.length = 227 :=
  (claim10_split_sizes bigEnv (List.Perm.refl _) (List.Perm.refl _)).2.2
    (by simp [bigEnv, bigRows])

/-- C4: the split partitions the dataset's rows into train, validation and
test: together they are a permutation of the loaded rows, every partition
row is an original row (features kept paired with their target), and with
distinct row indices the three partitions are pairwise disjoint. -/
theorem claim4_split_partitions (e : Env)
    (h1 : List.Perm e.shuffled1 e.rows)
    (h2 : List.Perm e.shuffled2 (trainTestSplit e.shuffled1).1)
    (hnodup : (e.rows.map Row.idx).Nodup) :
    List.Perm ((run e).split.train ++ (run e).split.val ++ (run e).split.test) e.rows ∧
    (∀ r, (r ∈ (run e).split.train ∨ r ∈ (run e).split.val ∨ r ∈ (run e).split.test) →
      r ∈ e.rows) ∧
    List.Disjoint ((run e).split.train.map Row.idx) ((run e).split.val.map Row.idx) ∧
    List.Disjoint ((run e).split.train.map Row.idx) ((run e).split.test.map Row.idx) ∧
    List.Disjoint ((run e).split.val.map Row.idx) ((run e).split.test.map Row.idx) := by
  rw [run_split]
  obtain ⟨d1, d2, d3⟩ := splitData_disjoint e.rows e.shuffled1 e.shuffled2 h1 h2 hnodup
  exact ⟨splitData_perm e.rows e.shuffled1 e.shuffled2 h1 h2,
    fun r hr => splitData_mem e.rows e.shuffled1 e.shuffled2 h1 h2 r hr, d1, d2, d3⟩

/-- C4 witness at the three-row environment. -/
theorem claim4_split_partitions_witness :
    List.Perm ((run sampleEnv).split.train ++ (run sampleEnv).split.val ++
      (run sampleEnv).split.test) sampleEnv.rows ∧
    (∀ r, (r ∈ (run sampleEnv).split.train ∨ r ∈ (run sampleEnv).split.val ∨
      r ∈ (run sampleEnv).split.test) → r ∈ sampleEnv.rows) ∧
    List.Disjoint ((run sampleEnv).split.train.map Row.idx)
      ((run sampleEnv).split.val.map Row.idx) ∧
    List.Disjoint ((run sampleEnv).split.train.map Row.idx)
      ((run sampleEnv).split.test.map Row.idx) ∧
    List.Disjoint ((run sampleEnv).split.val.map Row.idx)
      ((run sampleEnv).split.test.map Row.idx) :=
  claim4_split_partitions sampleEnv (List.Perm.refl _) (List.Perm.refl _) (by decide)

/-- C2: train.csv and validation.csv are built only from the train and
validation partitions: each file is exactly the serialization of its
partition, every file row comes from a train/validation row whose index
differs from every test row's index, and two runs with the same train and
validation partitions produce identical local files (hence identical
training inputs), whatever their test partitions. -/
theorem claim2_training_inputs_ignore_test (e1 e2 : Env)
    (h1 : List.Perm e1.shuffled1 e1.rows)
    (h2 : List.Perm e1.shuffled2 (trainTestSplit e1.shuffled1).1)
    (hnodup : (e1.rows.map Row.idx).Nodup)
    (htrain : (run e1).split.train = (run e2).split.train)
    (hval : (run e1).split.val = (run e2).split.val) :
    (run e1).trainCsv = csvOf (run e1).split.train ∧
    (run e1).valCsv = csvOf (run e1).split.val ∧
    (∀ l, (l ∈ (run e1).trainCsv ∨ l ∈ (run e1).valCsv) → ∃ r,
      (r ∈ (run e1).split.train ∨ r ∈ (run e1).split.val) ∧ l = csvRow r ∧
      ∀ rt ∈ (run e1).split.test, r.idx ≠ rt.idx) ∧
    (run e1).trainCsv = (run e2).trainCsv ∧
    (run e1).valCsv = (run e2).valCsv ∧
    (run e1).localFiles = (run e2).localFiles := by
  obtain ⟨d1, d2, d3⟩ := splitData_disjoint e1.rows e1.shuffled1 e1.shuffled2 h1 h2 hnodup
  have hT : (run e1).trainCsv = csvOf (run e1).split.train := rfl
  have hV : (run e1).valCsv = csvOf (run e1).split.val := rfl
  have hcross1 : (run e1).trainCsv = (run e2).trainCsv := by
    rw [hT, htrain]; rfl
  have hcross2 : (run e1).valCsv = (run e2).valCsv := by
    rw [hV, hval]; rfl
  refine ⟨hT, hV, ?_, hcross1, hcross2, ?_⟩
  · rintro l (hl | hl)
    · obtain ⟨r, hr, hlr⟩ := List.mem_map.mp (hT ▸ hl)
      refine ⟨r, Or.inl hr, hlr.symm, ?_⟩
      intro rt hrt heq
      apply d2 (List.mem_map_of_mem Row.idx hr)
      rw [heq]
      exact List.mem_map_of_mem Row.idx hrt
    · obtain ⟨r, hr, hlr⟩ := List.mem_map.mp (hV ▸ hl)
      refine ⟨r, Or.inr hr, hlr.symm, ?_⟩
      intro rt hrt heq
      apply d3 (List.mem_map_of_mem Row.idx hr)
      rw [heq]
      exact List.mem_map_of_mem Row.idx hrt
  · rw [run_localFiles, run_localFiles, hcross1, hcross2]

/-- C2 witness: two executions differing in the initial filesystem state
share train and validation partitions and hence training inputs. -/
theorem claim2_training_inputs_ignore_test_witness :
    (run sampleEnv).trainCsv = csvOf (run sampleEnv).split.train ∧
    (run sampleEnv).valCsv = csvOf (run sampleEnv).split.val ∧
    (∀ l, (l ∈ (run sampleEnv).trainCsv ∨ l ∈ (run sampleEnv).valCsv) → ∃ r,
      (r ∈ (run sampleEnv).split.train ∨ r ∈ (run sampleEnv).split.val) ∧ l = csvRow r ∧
      ∀ rt ∈ (run sampleEnv).split.test, r.idx ≠ rt.idx) ∧
    (run sampleEnv).trainCsv = (run sampleEnvNoDir).trainCsv ∧
    (run sampleEnv).valCsv = (run sampleEnvNoDir).valCsv ∧
    (run sampleEnv).localFiles = (run sampleEnvNoDir).localFiles :=
  claim2_training_inputs_ignore_test sampleEnv sampleEnvNoDir
    (List.Perm.refl _) (List.Perm.refl _) (by decide) rfl rfl

/-- C1: in every execution the step kinds occur in exactly the notebook's
order — load, split, (the guarded makedirs,) the two csv writes, the two
uploads, image lookup, estimator construction, hyperparameters, fit,
deploy, predict, plot, delete_endpoint — in particular predict comes
strictly after deploy and delete_endpoint is the last operation of all. -/
theorem claim1_step_order (e : Env) :
    ((run e).trace.map kindOf =
      [StepKind.load, StepKind.split] ++
        (if e.dirExists then [] else [StepKind.makeDirs]) ++
        [StepKind.writeCsv, StepKind.writeCsv, StepKind.upload, StepKind.upload,
         StepKind.getImage, StepKind.createEstimator, StepKind.setHyper,
         StepKind.fit, StepKind.deploy, StepKind.predict, StepKind.plot,
         StepKind.deleteEndpoint]) ∧
    (((run e).trace.map kindOf).indexOf StepKind.load <
       ((run e).trace.map kindOf).indexOf StepKind.split ∧
     ((run e).trace.map kindOf).indexOf StepKind.split <
       ((run e).trace.map kindOf).indexOf StepKind.writeCsv ∧
     ((run e).trace.map kindOf).indexOf StepKind.writeCsv <
       ((run e).trace.map kindOf).indexOf StepKind.upload ∧
     ((run e).trace.map kindOf).indexOf StepKind.upload <
       ((run e).trace.map kindOf).indexOf StepKind.fit ∧
     ((run e).trace.map kindOf).indexOf StepKind.fit <
       ((run e).trace.map kindOf).indexOf StepKind.deploy ∧
     ((run e).trace.map kindOf).indexOf StepKind.deploy <
       ((run e).trace.map kindOf).indexOf StepKind.predict ∧
     ((run e).trace.map kindOf).indexOf StepKind.predict <
       ((run e).trace.map kindOf).indexOf StepKind.plot ∧
     ((run e).trace.map kindOf).indexOf StepKind.plot <
       ((run e).trace.map kindOf).indexOf StepKind.deleteEndpoint) ∧
    (run e).trace.getLast? = some (Op.deleteEndpoint 0) := by
  obtain ⟨rows, s1, s2, dirE, sdk⟩ := e
  have hmap : (run ⟨rows, s1, s2, dirE, sdk⟩).trace.map kindOf =
      [StepKind.load, StepKind.split] ++
        (if dirE then [] else [StepKind.makeDirs]) ++
        [StepKind.writeCsv, StepKind.writeCsv, StepKind.upload, StepKind.upload,
         StepKind.getImage, StepKind.createEstimator, StepKind.setHyper,
         StepKind.fit, StepKind.deploy, StepKind.predict, StepKind.plot,
         StepKind.deleteEndpoint] := by
    cases dirE <;> simp [run, ensureDataDir, kindOf]
  refine ⟨hmap, ?_, ?_⟩
  · rw [hmap]
    cases dirE <;> simp <;> decide
  · cases dirE <;> rfl

/-- C3 counterexample: when the data directory is missing the execution
additionally performs the makedirs operation, so two initial states yield
different operation sequences — the embedded program is not literally one
unconditional sequence. -/
theorem claim3_counterexample :
    (run sampleEnvNoDir).trace ≠ (run sampleEnv).trace := by
  intro h
  have hlen := congrArg List.length h
  simp [run, ensureDataDir, sampleEnv, sampleEnvNoDir] at hlen

/-- C3 amended: the data-directory guard is the notebook's only branch;
once the guarded makedirs is set aside, every execution performs one and
the same sequence of step kinds, for every initial state, dataset,
shuffle and SDK. -/
theorem claim3_straight_line (e1 e2 : Env) :
    ((run e1).trace.filter (fun op => !(isMakeDirs op))).map kindOf =
    ((run e2).trace.filter (fun op => !(isMakeDirs op))).map kindOf := by
  obtain ⟨r1, a1, b1, d1, k1⟩ := e1
  obtain ⟨r2, a2, b2, d2, k2⟩ := e2
  cases d1 <;> cases d2 <;>
    simp [run, ensureDataDir, isMakeDirs, kindOf]

/-- C5: exactly two files are uploaded — validation.csv then train.csv,
both under the key folder 'boston-xgboost-deploy-hl' — both csv files are
written with header=False and index=False, and every row of either file
is the target value followed by the 13 feature values of one
validation/train row. -/
theorem claim5_uploads (e : Env)
    (hfeat : ∀ r ∈ e.rows, r.features.length = 13)
    (h1 : List.Perm e.shuffled1 e.rows)
    (h2 : List.Perm e.shuffled2 (trainTestSplit e.shuffled1).1) :
    (run e).trace.filter isUpload =
      [Op.uploadData (dataDir ++ "/validation.csv") keyFolder,
       Op.uploadData (dataDir ++ "/train.csv") keyFolder] ∧
    keyFolder = "boston-xgboost-deploy-hl" ∧
    (run e).localFiles =
      [(dataDir ++ "/validation.csv", (run e).valCsv),
       (dataDir ++ "/train.csv", (run e).trainCsv)] ∧
    (run e).trace.all noHeaderNoIndex = true ∧
    (∀ l ∈ (run e).valCsv, ∃ r ∈ (run e).split.val,
      l = r.target :: r.features ∧ l.length = 14) ∧
    (∀ l ∈ (run e).trainCsv, ∃ r ∈ (run e).split.train,
      l = r.target :: r.features ∧ l.length = 14) := by
  obtain ⟨rows, s1, s2, dirE, sdk⟩ := e
  refine ⟨?_, rfl, rfl, ?_, ?_, ?_⟩
  · cases dirE <;> simp [run, ensureDataDir, isUpload]
  · cases dirE <;> simp [run, ensureDataDir, noHeaderNoIndex]
  · intro l hl
    obtain ⟨r, hr, hlr⟩ := List.mem_map.mp hl
    have hrrows : r ∈ rows :=
      splitData_mem rows s1 s2 h1 h2 r (Or.inr (Or.inl hr))
    refine ⟨r, hr, ?_, ?_⟩
    · rw [← hlr]; rfl
    · rw [← hlr]
      simp [csvRow, hfeat r hrrows]
  · intro l hl
    obtain ⟨r, hr, hlr⟩ := List.mem_map.mp hl
    have hrrows : r ∈ rows :=
      splitData_mem rows s1 s2 h1 h2 r (Or.inl hr)
    refine ⟨r, hr, ?_, ?_⟩
    · rw [← hlr]; rfl
    · rw [← hlr]
      simp [csvRow, hfeat r hrrows]

/-- C5 witness at the three-row environment with 13 features per row. -/
theorem claim5_uploads_witness :
    (run sampleEnv).trace.filter isUpload =
      [Op.uploadData (dataDir ++ "/validation.csv") keyFolder,
       Op.uploadData (dataDir ++ "/train.csv") keyFolder] ∧
    keyFolder = "boston-xgboost-deploy-hl" ∧
    (run sampleEnv).localFiles =
      [(dataDir ++ "/validation.csv", (run sampleEnv).valCsv),
       (dataDir ++ "/train.csv", (run sampleEnv).trainCsv)] ∧
    (run sampleEnv).trace.all noHeaderNoIndex = true ∧
    (∀ l ∈ (run sampleEnv).valCsv, ∃ r ∈ (run sampleEnv).split.val,
      l = r.target :: r.features ∧ l.length = 14) ∧
    (∀ l ∈ (run sampleEnv).trainCsv, ∃ r ∈ (run sampleEnv).split.train,
      l = r.target :: r.features ∧ l.length = 14) :=
  claim5_uploads sampleEnv (by decide) (List.Perm.refl _) (List.Perm.refl _)

/-- C6: the training container is exactly the image URI the SDK returns
for the session's region, algorithm 'xgboost' and version '0.90-1', and
fit receives exactly the two channels 'train' and 'validation', both csv,
pointing at the two uploaded locations. -/
theorem claim6_container_and_channels (e : Env) :
    (run e).container = e.sdk.imageUri e.sdk.region "xgboost" "0.90-1" ∧
    (run e).trace.filter isGetImageUri =
      [Op.getImageUri e.sdk.region "xgboost" "0.90-1"] ∧
    (run e).trace.filter isCreateEstimator =
      [Op.createEstimator (e.sdk.imageUri e.sdk.region "xgboost" "0.90-1") 1
        "ml.m4.xlarge"
        ("s3://" ++ e.sdk.defaultBucket ++ "/" ++ keyFolder ++ "/output")] ∧
    (run e).trace.filter isFit =
      [Op.fit [("train", (run e).trainLocation, "csv"),
               ("validation", (run e).valLocation, "csv")]] ∧
    (run e).trainLocation = e.sdk.s3Location keyFolder "train.csv" ∧
    (run e).valLocation = e.sdk.s3Location keyFolder "validation.csv" := by
  obtain ⟨rows, s1, s2, dirE, sdk⟩ := e
  refine ⟨rfl, ?_, ?_, ?_, rfl, rfl⟩ <;>
    cases dirE <;>
      simp [run, ensureDataDir, isGetImageUri, isCreateEstimator, isFit]

/-- C7: the test rows are sent in one single predict call whose payload is
the feature rows of the test partition (targets stripped) with content
type 'text/csv', and Y_pred is the endpoint's response decoded as UTF-8
and parsed as a comma-separated list of numbers. -/
theorem claim7_predict (e : Env) :
    (run e).trace.filter isPredict =
      [Op.predict 0 ((run e).split.test.map Row.features) "text/csv"] ∧
    (run e).yPred =
      (String.fromUTF8?
        (e.sdk.endpointResponse ((run e).split.test.map Row.features))).map
        npFromString := by
  obtain ⟨rows, s1, s2, dirE, sdk⟩ := e
  refine ⟨?_, rfl⟩
  cases dirE <;> simp [run, ensureDataDir, isPredict]

/-- C8: exactly one deploy (one ml.m4.xlarge instance) creates endpoint 0
and exactly one delete_endpoint — on that same predictor — destroys it;
the delete is the last operation, no endpoint survives the run, and the
endpoint is in service in exactly those execution prefixes that contain
the deploy but not yet the delete. -/
theorem claim8_endpoint_lifecycle (e : Env) :
    (run e).trace.filter isDeploy = [Op.deploy 0 1 "ml.m4.xlarge"] ∧
    (run e).trace.filter isDeleteEndpoint = [Op.deleteEndpoint 0] ∧
    (run e).trace.getLast? = some (Op.deleteEndpoint 0) ∧
    endpointsAfter (run e).trace = [] ∧
    (∀ n ≤ (run e).trace.length,
      ((0 : ℕ) ∈ endpointsAfter ((run e).trace.take n) ↔
        (((run e).trace.take n).any isDeploy = true ∧
         ¬ ((run e).trace.take n).any isDeleteEndpoint = true))) := by
  obtain ⟨rows, s1, s2, dirE, sdk⟩ := e
  refine ⟨?_, ?_, ?_, ?_, ?_⟩
  · cases dirE <;> simp [run, ensureDataDir, isDeploy]
  · cases dirE <;> simp [run, ensureDataDir, isDeleteEndpoint]
  · cases dirE <;> rfl
  · cases dirE <;> rfl
  · cases dirE
    · intro n hn
      have hn15 : n ≤ 15 := by
        simpa [run, ensureDataDir] using hn
      interval_cases n <;>
        simp [run, ensureDataDir, endpointsAfter, isDeploy, isDeleteEndpoint]
    · intro n hn
      have hn14 : n ≤ 14 := by
        simpa [run, ensureDataDir] using hn
      interval_cases n <;>
        simp [run, ensureDataDir, endpointsAfter, isDeploy, isDeleteEndpoint]
